import Mathlib

/-!
Shallow embedding of the `swap` Ansible module (`src/system/swap.py`).

The module reconciles a swap-backed file on a POSIX host: it observes the
actual state (is the path active as swap, its size in MB, whether an
`/etc/fstab` record exists), diffs it against the desired state, and runs
corrective actions through an external-command capability.

The embedding models:
  * the world of external command exit codes and the check (dry-run) mode
    flag (`World`);
  * the mutable per-invocation state: the change log (`self.changes`), the
    contents of `/etc/fstab` as a list of lines, and a trace of external
    effects performed (`ExecState`);
  * each executor method (`create_swap`, `remove_swap`, `resize_swap`,
    `make_persistent`, `make_temporary`) as an explicit state-passing
    function returning `Except` for the Python exceptions it can raise;
  * the observer functions (`check_actual_size`, `check_actual_persistent`);
  * the planner embedded from `Swap.run`: which actions it invokes, in
    order, and the `changed` flag it returns (`runPlan`);
  * `Swap.__init__` argument validation (`swapInit`).

Machine integers are modelled as `Int`/`Nat`: the Python source is Python 2,
so `/` on nonnegative ints is floor division, modelled by `Nat` division.
fstab lines are `List Char` so that the source's `str.startswith` and the
`in` substring test become list prefix/infix predicates.
-/

/-- The environment of one invocation: the check-mode flag
(`self.module.check_mode`) and the exit code each external command would
return (`self.module.run_command`). -/
structure World where
  checkMode : Bool
  rc : List String → Int

/-- Error taxonomy for the exceptions the source raises (the Python source
raises bare `Exception` with distinct messages; the spec names them). -/
inductive SwapError
  | configError
  | allocationError
  | formatError
  | activationError
  | deactivationError
  | deletionError
deriving DecidableEq

/-- External effects performed against the host, recorded as a trace:
running a command, stat-ing a file, and reading/appending/rewriting the
persistent-record file `/etc/fstab`. -/
inductive Effect
  | run (argv : List String)
  | statFile (path : String)
  | readFstab
  | appendFstab (line : List Char)
  | writeFstab (contents : List (List Char))
deriving DecidableEq

/-- Mutable state threaded through one invocation: the change log
(`self.changes`), the fstab contents, and the trace of external effects. -/
structure ExecState where
  log : List String
  fstab : List (List Char)
  trace : List Effect
deriving DecidableEq

/-- `Swap.block_size = 1024 * 1024`. -/
def blockSize : Int := 1024 * 1024

/-- `blockSize` as a natural number, for size division on byte counts. -/
def blockSizeNat : Nat := 1024 * 1024

/-- Append one entry to the change log (`self.changes.append(...)`). -/
def addLog (s : ExecState) (tag : String) : ExecState :=
  { s with log := s.log ++ [tag] }

/-- Run an external command: record it in the trace and consult the world
for its exit code (`self.module.run_command(cmd)`). -/
def runCmd (w : World) (s : ExecState) (argv : List String) : ExecState × Int :=
  ({ s with trace := s.trace ++ [Effect.run argv] }, w.rc argv)

/-- `Swap._get_fallocate_command`. -/
def fallocateCmd (path : String) (size : Int) : List String :=
  ["fallocate", "-l", toString (size * blockSize), path]

/-- `Swap._get_dd_command`. -/
def ddCmd (path : String) (size : Int) : List String :=
  ["dd", "if=/dev/zero", "of=" ++ path, "bs=" ++ toString blockSize,
   "count=" ++ toString size]

/-- `Swap.create_swap`. Probes for `fallocate`; if found, uses it with `dd`
as fallback, otherwise uses `dd` alone. The source raises
`Create swap failed` only inside the `cmd_create_fallback is not None`
branch, so a failure of `dd` on the dd-only path falls through to `mkswap`.
Then formats (`mkswap`) and activates (`swapon`). -/
def create_swap (w : World) (s : ExecState) (path : String) (size : Int) :
    ExecState × Except SwapError Unit :=
  let s := addLog s "create_swap"
  if w.checkMode then (s, Except.ok ()) else
  let (s, probeRc) := runCmd w s ["which", "fallocate"]
  let (s, cmdCreate, fallback) :=
    if probeRc = 0 then
      (addLog s "using fallocate", fallocateCmd path size, some (ddCmd path size))
    else
      (addLog s "using dd", ddCmd path size, (none : Option (List String)))
  let (s, rc) := runCmd w s cmdCreate
  let alloc : ExecState × Except SwapError Unit :=
    if rc ≠ 0 then
      match fallback with
      | some fb =>
        let (s, rc2) := runCmd w s fb
        if rc2 ≠ 0 then (s, Except.error SwapError.allocationError)
        else (s, Except.ok ())
      | none => (s, Except.ok ())
    else (s, Except.ok ())
  match alloc with
  | (s, Except.error e) => (s, Except.error e)
  | (s, Except.ok _) =>
    let (s, rcM) := runCmd w s ["mkswap", path]
    if rcM ≠ 0 then (s, Except.error SwapError.formatError) else
    let (s, rcA) := runCmd w s ["swapon", path]
    if rcA ≠ 0 then (s, Except.error SwapError.activationError) else
    (s, Except.ok ())

/-- `Swap.remove_swap`: `swapoff` then `rm`. -/
def remove_swap (w : World) (s : ExecState) (path : String) :
    ExecState × Except SwapError Unit :=
  let s := addLog s "remove_swap"
  if w.checkMode then (s, Except.ok ()) else
  let (s, rc) := runCmd w s ["swapoff", path]
  if rc ≠ 0 then (s, Except.error SwapError.deactivationError) else
  let (s, rc2) := runCmd w s ["rm", path]
  if rc2 ≠ 0 then (s, Except.error SwapError.deletionError) else
  (s, Except.ok ())

/-- `Swap.resize_swap`: in check mode only the log tag; otherwise delegate
to `remove_swap` then `create_swap` (exceptions propagate). -/
def resize_swap (w : World) (s : ExecState) (path : String) (newSize : Int) :
    ExecState × Except SwapError Unit :=
  let s := addLog s "resize_swap"
  if w.checkMode then (s, Except.ok ()) else
  match remove_swap w s path with
  | (s, Except.error e) => (s, Except.error e)
  | (s, Except.ok _) => create_swap w s path newSize

/-- The fstab line `make_persistent` appends:
`'%s\tnone\tswap\tsw\t0\t0\n' % path`. -/
def fstabEntry (path : String) : List Char :=
  path.toList ++ "\tnone\tswap\tsw\t0\t0\n".toList

/-- `Swap.make_persistent`: append one record line to fstab. -/
def make_persistent (w : World) (s : ExecState) (path : String) :
    ExecState × Except SwapError Unit :=
  let s := addLog s "make_persistent"
  if w.checkMode then (s, Except.ok ()) else
  ({ s with fstab := s.fstab ++ [fstabEntry path],
            trace := s.trace ++ [Effect.appendFstab (fstabEntry path)] },
   Except.ok ())

/-- `Swap.make_temporary`: read fstab and rewrite it keeping only the lines
that do not contain the path as a substring (`if not path in line`). -/
def make_temporary (w : World) (s : ExecState) (path : String) :
    ExecState × Except SwapError Unit :=
  let s := addLog s "make_temporary"
  if w.checkMode then (s, Except.ok ()) else
  let s := { s with trace := s.trace ++ [Effect.readFstab] }
  let newLines := s.fstab.filter (fun line => !(decide (path.toList <:+: line)))
  ({ s with fstab := newLines, trace := s.trace ++ [Effect.writeFstab newLines] },
   Except.ok ())

/-- The actions `Swap.run` can take, as a tagged variant. -/
inductive SwapAction
  | createSwap (path : String) (sizeMB : Int)
  | removeSwap (path : String)
  | resizeSwap (path : String) (newSizeMB : Int)
  | makePersistent (path : String)
  | makeTemporary (path : String)
deriving DecidableEq

/-- Dispatch one action to its executor method. -/
def execAction (w : World) (s : ExecState) : SwapAction → ExecState × Except SwapError Unit
  | SwapAction.createSwap p n => create_swap w s p n
  | SwapAction.removeSwap p => remove_swap w s p
  | SwapAction.resizeSwap p n => resize_swap w s p n
  | SwapAction.makePersistent p => make_persistent w s p
  | SwapAction.makeTemporary p => make_temporary w s p

/-- Execute a sequence of actions fail-fast: stop at the first error, as
the propagating Python exception does. -/
def execSeq (w : World) (s : ExecState) : List SwapAction → ExecState × Except SwapError Unit
  | [] => (s, Except.ok ())
  | a :: rest =>
    match execAction w s a with
    | (s, Except.ok _) => execSeq w s rest
    | (s, Except.error e) => (s, Except.error e)

/-- Desired state captured by `Swap.__init__` from the module parameters.
`sizeMB` is only meaningful when `present` is true (the Python attribute is
never set for `state=absent`). -/
structure DesiredState where
  present : Bool
  sizeMB : Int
  persistent : Bool
deriving DecidableEq

/-- Actual state observed by the three `check_actual_*` methods. -/
structure ActualState where
  active : Bool
  sizeMB : Int
  persistent : Bool
deriving DecidableEq

/-- The planner embedded from `Swap.run`: the `changed` flag it returns and
the ordered list of action calls it makes, which depend only on the desired
and actual state captured at `__init__` time. -/
def runPlan (path : String) (d : DesiredState) (a : ActualState) :
    Bool × List SwapAction :=
  if d.present then
    if !a.active then
      (true, SwapAction.createSwap path d.sizeMB ::
        (if d.persistent && !a.persistent then [SwapAction.makePersistent path] else []))
    else
      let sizeStep : Bool × List SwapAction :=
        if a.sizeMB ≠ d.sizeMB then (true, [SwapAction.resizeSwap path d.sizeMB])
        else (false, [])
      let persStep : Bool × List SwapAction :=
        if a.persistent ≠ d.persistent then
          (true, if d.persistent then [SwapAction.makePersistent path]
                 else [SwapAction.makeTemporary path])
        else (false, [])
      (sizeStep.1 || persStep.1, sizeStep.2 ++ persStep.2)
  else
    if a.active then
      (true, (if a.persistent then [SwapAction.makeTemporary path] else []) ++
             [SwapAction.removeSwap path])
    else (false, [])

/-- Success-path host-state transition of one action, derived from the
commands the executor runs and what the observer would then read: creating
or resizing allocates exactly `sizeMB` MiB at the path and activates it,
removal deactivates and deletes the file (observed size becomes the `-1`
sentinel), and the persistence actions toggle the fstab record. -/
def applyAction (a : ActualState) : SwapAction → ActualState
  | SwapAction.createSwap _ n => { active := true, sizeMB := n, persistent := a.persistent }
  | SwapAction.removeSwap _ => { active := false, sizeMB := -1, persistent := a.persistent }
  | SwapAction.resizeSwap _ n => { active := true, sizeMB := n, persistent := a.persistent }
  | SwapAction.makePersistent _ => { a with persistent := true }
  | SwapAction.makeTemporary _ => { a with persistent := false }

/-- Host state after a whole action sequence succeeds. -/
def applyPlan (a : ActualState) (acts : List SwapAction) : ActualState :=
  acts.foldl applyAction a

/-- `Swap.check_actual_size`: `os.path.getsize(path) / block_size` when the
path is a regular file (Python 2 floor division on nonnegative ints), `-1`
otherwise. `byteSize` is `some b` when the path exists as a regular file of
`b` bytes. -/
def check_actual_size (byteSize : Option Nat) : Int :=
  match byteSize with
  | some b => ((b / blockSizeNat : Nat) : Int)
  | none => -1

/-- `Swap.check_actual_persistent`: scan fstab for a line that starts with
the path (`line.startswith(self.path)`). -/
def check_actual_persistent (fstab : List (List Char)) (path : String) : Bool :=
  fstab.any (fun line => path.toList.isPrefixOf line)

/-- The module parameters consumed by `Swap.__init__`. `size = none` models
the `size` key being absent from the parameter dictionary. -/
structure Params where
  state : String
  path : String
  size : Option Int
  persistent : Bool

/-- The host as seen by the observer: the paths listed by `swapon -s`, the
byte size of each path that exists as a regular file, and fstab. -/
structure Host where
  activeSwaps : List String
  fileSize : String → Option Nat
  fstab : List (List Char)

/-- The shell pipeline `check_actual_present` runs. -/
def swapListCmd : List String :=
  ["sh", "-c", "swapon -s | tail -n +2 | awk '\x7bprint $1\x7d'"]

/-- The observation effects `Swap.__init__` performs after validation: the
live-swap-list command, the size stat, and the fstab read. -/
def observationEffects (path : String) : List Effect :=
  [Effect.run swapListCmd, Effect.statFile path, Effect.readFstab]

/-- `Swap.__init__`: capture the desired state from the parameters, raising
(`ConfigError`) when `state=present` and no size is supplied — before the
three `check_actual_*` observations run. On success it returns the desired
and observed state; the returned trace lists the observations performed.
When `present` is false the source never sets `self.size`; `-1` stands for
that unset attribute. -/
def swapInit (params : Params) (host : Host) :
    List Effect × Except SwapError (DesiredState × ActualState) :=
  let present : Bool := params.state == "present"
  if present && params.size.isNone then
    ([], Except.error SwapError.configError)
  else
    let d : DesiredState :=
      { present := present, sizeMB := params.size.getD (-1),
        persistent := params.persistent }
    let a : ActualState :=
      { active := host.activeSwaps.contains params.path,
        sizeMB := check_actual_size (host.fileSize params.path),
        persistent := check_actual_persistent host.fstab params.path }
    (observationEffects params.path, Except.ok (d, a))

/-- Desired and actual state agree: presence matches activation and, when
present, the observed size and persistence match the request. -/
def matchesState (d : DesiredState) (a : ActualState) : Prop :=
  d.present = a.active ∧
  (d.present = true → a.sizeMB = d.sizeMB ∧ a.persistent = d.persistent)

instance (d : DesiredState) (a : ActualState) : Decidable (matchesState d a) := by
  unfold matchesState
  infer_instance

/-- Empty per-invocation state. -/
def execState0 : ExecState := { log := [], fstab := [], trace := [] }

/-- A world in real (non-check) mode where every command succeeds. -/
def okWorld : World := { checkMode := false, rc := fun _ => 0 }

/-- A world in check (dry-run) mode. -/
def checkWorld : World := { checkMode := true, rc := fun _ => 0 }

/-- A world where `which fallocate` and `dd` fail (exit 1) while `mkswap`
and `swapon` succeed. -/
def c1World : World :=
  { checkMode := false,
    rc := fun argv =>
      if argv = ["mkswap", "/swap1"] ∨ argv = ["swapon", "/swap1"] then 0 else 1 }

/-- Parameters requesting a present swap with no size supplied. -/
def c9Params : Params :=
  { state := "present", path := "/swap1", size := none, persistent := false }

/-- A host with no active swaps, no files and an empty fstab. -/
def c9Host : Host :=
  { activeSwaps := [], fileSize := fun _ => none, fstab := [] }

/-- C1: when the `which fallocate` probe fails and the slow `dd` allocation
also exits non-zero, `create_swap` is claimed to fail with `AllocationError`
without running `mkswap` or `swapon`. The code instead ignores the failed
`dd` exit status (the raise is guarded by `cmd_create_fallback is not None`,
which is `None` on the dd-only path), runs `mkswap` and `swapon`, and
reports success: in `c1World` the probe and `dd` exit 1, yet the result is
`ok` and the trace shows `mkswap` and `swapon` were run after `dd`. -/
theorem swap_c1_dd_only_failure_ignored :
    c1World.rc (ddCmd "/swap1" 512) = 1 ∧
    (create_swap c1World execState0 "/swap1" 512).2 = Except.ok () ∧
    (create_swap c1World execState0 "/swap1" 512).1.trace =
      [Effect.run ["which", "fallocate"],
       Effect.run (ddCmd "/swap1" 512),
       Effect.run ["mkswap", "/swap1"],
       Effect.run ["swapon", "/swap1"]] :=
  ⟨rfl, rfl, rfl⟩

/-- C2 counterexample: with desired `{present, sizeMB 512, persistent}` and
actual `{inactive, size -1, already persistent}`, the plan is `CreateSwap`
alone — not `CreateSwap; MakePersistent` as the claim requires whenever
`desired.persistent` is true regardless of the actual persistence. -/
theorem swap_c2_counterexample :
    (runPlan "/swap1" ⟨true, 512, true⟩ ⟨false, -1, true⟩).2 =
      [SwapAction.createSwap "/swap1" 512] ∧
    (runPlan "/swap1" ⟨true, 512, true⟩ ⟨false, -1, true⟩).2 ≠
      [SwapAction.createSwap "/swap1" 512, SwapAction.makePersistent "/swap1"] := by
  refine ⟨rfl, ?_⟩
  decide

/-- C2 (amended): for desired present and actual inactive, the plan is
`CreateSwap` followed by `MakePersistent` when desired persistence is true
and the actual state is not already persistent, and `CreateSwap` alone
otherwise. -/
theorem swap_c2_create_then_persist (path : String) (d : DesiredState)
    (a : ActualState) (hp : d.present = true) (ha : a.active = false) :
    (runPlan path d a).2 =
      if d.persistent = true ∧ a.persistent = false then
        [SwapAction.createSwap path d.sizeMB, SwapAction.makePersistent path]
      else [SwapAction.createSwap path d.sizeMB] := by
  rcases d with ⟨dp, ds, dpe⟩
  rcases a with ⟨aa, asz, ap⟩
  cases hp
  cases ha
  cases dpe <;> cases ap <;> simp [runPlan]

/-- C2 witness for the amended theorem at a concrete input. -/
theorem swap_c2_create_then_persist_witness :
    (DesiredState.mk true 512 true).present = true ∧
    (ActualState.mk false (-1) false).active = false ∧
    (runPlan "/swap1" ⟨true, 512, true⟩ ⟨false, -1, false⟩).2 =
      if (DesiredState.mk true 512 true).persistent = true ∧
         (ActualState.mk false (-1) false).persistent = false then
        [SwapAction.createSwap "/swap1" 512, SwapAction.makePersistent "/swap1"]
      else [SwapAction.createSwap "/swap1" 512] :=
  ⟨rfl, rfl, swap_c2_create_then_persist "/swap1" ⟨true, 512, true⟩ ⟨false, -1, false⟩ rfl rfl⟩

/-- C3: when the actual state already matches the desired state, `Swap.run`
makes no action calls and returns `changed = false`. -/
theorem swap_c3_noop_stability (path : String) (d : DesiredState)
    (a : ActualState) (h : matchesState d a) :
    runPlan path d a = (false, []) := by
  obtain ⟨h1, h2⟩ := h
  rcases d with ⟨dp, ds, dpe⟩
  rcases a with ⟨aa, asz, ap⟩
  cases dp
  · have haa : aa = false := by simpa using h1.symm
    subst haa
    simp [runPlan]
  · obtain ⟨hs, hp⟩ := h2 rfl
    simp only at h1 hs hp
    have haa : aa = true := h1.symm
    subst haa
    subst hs
    subst hp
    simp [runPlan]

/-- C3 witness at a concrete matching pair. -/
theorem swap_c3_noop_stability_witness :
    matchesState ⟨true, 512, true⟩ ⟨true, 512, true⟩ ∧
    runPlan "/swap1" ⟨true, 512, true⟩ ⟨true, 512, true⟩ = (false, []) :=
  ⟨by decide, swap_c3_noop_stability "/swap1" ⟨true, 512, true⟩ ⟨true, 512, true⟩ (by decide)⟩

/-- C6: for desired absent with the file active and a persistent record
present, the plan is exactly `MakeTemporary` then `RemoveSwap`, in that
order. -/
theorem swap_c6_cleanup_before_removal (path : String) (d : DesiredState)
    (a : ActualState) (h1 : d.present = false) (h2 : a.active = true)
    (h3 : a.persistent = true) :
    (runPlan path d a).2 =
      [SwapAction.makeTemporary path, SwapAction.removeSwap path] := by
  rcases d with ⟨dp, ds, dpe⟩
  rcases a with ⟨aa, asz, ap⟩
  cases h1
  cases h2
  cases h3
  simp [runPlan]

/-- C6 witness at the spec's scenario. -/
theorem swap_c6_cleanup_before_removal_witness :
    (DesiredState.mk false (-1) false).present = false ∧
    (ActualState.mk true 512 true).active = true ∧
    (ActualState.mk true 512 true).persistent = true ∧
    (runPlan "/swap1" ⟨false, -1, false⟩ ⟨true, 512, true⟩).2 =
      [SwapAction.makeTemporary "/swap1", SwapAction.removeSwap "/swap1"] :=
  ⟨rfl, rfl, rfl,
   swap_c6_cleanup_before_removal "/swap1" ⟨false, -1, false⟩ ⟨true, 512, true⟩ rfl rfl rfl⟩

/-- C4 counterexample: the claim quantifies over every desired state and
host. (i) With desired absent and the host already without swap, the first
run reports `changed = false`, not `true`. (ii) With desired
`{present, 512 MB, persistent false}` and actual
`{inactive, no file, persistent record present}`, the first run reports
`changed = true`, but the second run — observing the state the first run
produced — again reports `changed = true` (the create branch never removes
the stale persistent record, so the second run calls `make_temporary`). -/
theorem swap_c4_counterexample :
    (runPlan "/swap1" ⟨false, -1, false⟩ ⟨false, -1, false⟩).1 = false ∧
    (runPlan "/swap1" ⟨true, 512, false⟩ ⟨false, -1, true⟩).1 = true ∧
    (runPlan "/swap1" ⟨true, 512, false⟩
      (applyPlan ⟨false, -1, true⟩
        (runPlan "/swap1" ⟨true, 512, false⟩ ⟨false, -1, true⟩).2)).1 = true := by
  refine ⟨rfl, rfl, ?_⟩
  decide

/-- C4 (amended): provided the initial actual state does not already match
the desired state, and excluding the case of a desired present non-persistent
swap over an inactive path that still has a persistent record, the first run
yields `changed = true` and the second run — observing the state produced by
the first successful run — yields `changed = false` with an empty action
list. -/
theorem swap_c4_idempotence (path : String) (d : DesiredState) (a : ActualState)
    (hdiff : ¬ matchesState d a)
    (hgap : ¬ (d.present = true ∧ d.persistent = false ∧
               a.active = false ∧ a.persistent = true)) :
    (runPlan path d a).1 = true ∧
    runPlan path d (applyPlan a (runPlan path d a).2) = (false, []) := by
  rcases d with ⟨dp, ds, dpe⟩
  rcases a with ⟨aa, asz, ap⟩
  simp only [matchesState] at hdiff hgap
  cases dp <;> cases aa <;> cases dpe <;> cases ap <;>
    by_cases hsz : asz = ds <;>
    simp_all [runPlan, applyPlan, applyAction]

/-- C4 witness for the amended theorem at a concrete input. -/
theorem swap_c4_idempotence_witness :
    ¬ matchesState ⟨true, 512, true⟩ ⟨false, -1, false⟩ ∧
    ¬ ((DesiredState.mk true 512 true).present = true ∧
       (DesiredState.mk true 512 true).persistent = false ∧
       (ActualState.mk false (-1) false).active = false ∧
       (ActualState.mk false (-1) false).persistent = true) ∧
    ((runPlan "/swap1" ⟨true, 512, true⟩ ⟨false, -1, false⟩).1 = true ∧
     runPlan "/swap1" ⟨true, 512, true⟩
       (applyPlan ⟨false, -1, false⟩
         (runPlan "/swap1" ⟨true, 512, true⟩ ⟨false, -1, false⟩).2) = (false, [])) :=
  ⟨by decide, by decide,
   swap_c4_idempotence "/swap1" ⟨true, 512, true⟩ ⟨false, -1, false⟩
     (by decide) (by decide)⟩

/-- C5: for every path and prior fstab contents, `check_actual_persistent`
returns true immediately after `make_persistent` and false immediately after
`make_temporary` (outside check mode, where the host is untouched). -/
theorem swap_c5_persistence_roundtrip (w : World) (s : ExecState) (path : String)
    (h : w.checkMode = false) :
    check_actual_persistent (make_persistent w s path).1.fstab path = true ∧
    check_actual_persistent (make_temporary w s path).1.fstab path = false := by
  constructor
  · simp only [make_persistent, h, Bool.false_eq_true, if_false,
      check_actual_persistent]
    rw [List.any_append]
    have hpre : path.toList.isPrefixOf (fstabEntry path) = true := by
      rw [List.isPrefixOf_iff_prefix]
      exact List.prefix_append _ _
    rw [List.any_cons, List.any_nil, hpre]
    simp
  · simp only [make_temporary, h, Bool.false_eq_true, if_false,
      check_actual_persistent]
    rw [List.any_eq_false]
    intro line hline
    rw [List.mem_filter] at hline
    obtain ⟨-, hkeep⟩ := hline
    rw [Bool.not_eq_eq_eq_not, Bool.not_true, decide_eq_false_iff_not] at hkeep
    intro hp
    exact hkeep ((List.isPrefixOf_iff_prefix.mp hp).isInfix)

/-- C5 witness at a concrete world, state and path. -/
theorem swap_c5_persistence_roundtrip_witness :
    okWorld.checkMode = false ∧
    (check_actual_persistent
        (make_persistent okWorld execState0 "/swap1").1.fstab "/swap1" = true ∧
     check_actual_persistent
        (make_temporary okWorld execState0 "/swap1").1.fstab "/swap1" = false) :=
  ⟨rfl, swap_c5_persistence_roundtrip okWorld execState0 "/swap1" rfl⟩

/-- C7: outside check mode, `resize_swap` is exactly the fail-fast
sequential execution of `RemoveSwap` followed by `CreateSwap` at the new
size (after its own log tag): a destructive remove-then-recreate, never an
in-place modification. -/
theorem swap_c7_resize_is_remove_then_create (w : World) (s : ExecState)
    (path : String) (n : Int) (h : w.checkMode = false) :
    resize_swap w s path n =
      execSeq w (addLog s "resize_swap")
        [SwapAction.removeSwap path, SwapAction.createSwap path n] := by
  simp only [resize_swap, execSeq, execAction, h, Bool.false_eq_true, if_false]
  rcases hrem : remove_swap w (addLog s "resize_swap") path with ⟨s1, r⟩
  cases r with
  | error e => simp [hrem]
  | ok u =>
    cases u
    rcases hcr : create_swap w s1 path n with ⟨s2, r2⟩
    cases r2 <;> simp [hrem, hcr, execSeq]

/-- C7 witness at a concrete world, state, path and size. -/
theorem swap_c7_resize_is_remove_then_create_witness :
    okWorld.checkMode = false ∧
    resize_swap okWorld execState0 "/swap1" 256 =
      execSeq okWorld (addLog execState0 "resize_swap")
        [SwapAction.removeSwap "/swap1", SwapAction.createSwap "/swap1" 256] :=
  ⟨rfl, swap_c7_resize_is_remove_then_create okWorld execState0 "/swap1" 256 rfl⟩

/-- C8: `check_actual_size` returns the floor of the byte size divided by
1 MiB (1,048,576 bytes) when the path exists as a regular file, and `-1`
when it does not. -/
theorem swap_c8_observed_size (b : Nat) :
    check_actual_size (some b) = ⌊(b : ℚ) / (1048576 : ℚ)⌋ ∧
    check_actual_size none = -1 := by
  refine ⟨?_, rfl⟩
  have h0 : (0 : ℚ) ≤ (b : ℚ) / (1048576 : ℚ) := by positivity
  rw [← Int.natCast_floor_eq_floor h0]
  have h1 : ⌊(b : ℚ) / (1048576 : ℚ)⌋₊ = b / 1048576 := by
    rw [show ((1048576 : ℚ)) = ((1048576 : ℕ) : ℚ) by norm_num]
    exact Nat.floor_div_eq_div b 1048576
  rw [h1]
  rfl

/-- C9: when `state` is `present` and no `size` parameter is supplied,
`Swap.__init__` fails with the configuration error before performing any
host observation or mutation (the effect trace is empty). -/
theorem swap_c9_config_error (params : Params) (host : Host)
    (h1 : params.state = "present") (h2 : params.size = none) :
    swapInit params host = ([], Except.error SwapError.configError) := by
  simp [swapInit, h1, h2]

/-- C9 witness at concrete parameters and host. -/
theorem swap_c9_config_error_witness :
    c9Params.state = "present" ∧ c9Params.size = none ∧
    swapInit c9Params c9Host = ([], Except.error SwapError.configError) :=
  ⟨rfl, rfl, swap_c9_config_error c9Params c9Host rfl rfl⟩

/-- C10: in check (dry-run) mode every mutating operation returns
immediately after appending exactly its own log tag: the effect trace and
fstab of the state are untouched (no external command, no fstab read or
write), and in particular `resize_swap` logs only `resize_swap`, not the
`remove_swap`/`create_swap` sub-action tags. -/
theorem swap_c10_check_mode_frame (w : World) (s : ExecState) (path : String)
    (n : Int) (h : w.checkMode = true) :
    create_swap w s path n = (addLog s "create_swap", Except.ok ()) ∧
    remove_swap w s path = (addLog s "remove_swap", Except.ok ()) ∧
    resize_swap w s path n = (addLog s "resize_swap", Except.ok ()) ∧
    make_persistent w s path = (addLog s "make_persistent", Except.ok ()) ∧
    make_temporary w s path = (addLog s "make_temporary", Except.ok ()) := by
  refine ⟨?_, ?_, ?_, ?_, ?_⟩ <;>
    simp [create_swap, remove_swap, resize_swap, make_persistent,
      make_temporary, h]

/-- C10 witness at a concrete check-mode world, state, path and size. -/
theorem swap_c10_check_mode_frame_witness :
    checkWorld.checkMode = true ∧
    (create_swap checkWorld execState0 "/swap1" 512 =
        (addLog execState0 "create_swap", Except.ok ()) ∧
     remove_swap checkWorld execState0 "/swap1" =
        (addLog execState0 "remove_swap", Except.ok ()) ∧
     resize_swap checkWorld execState0 "/swap1" 512 =
        (addLog execState0 "resize_swap", Except.ok ()) ∧
     make_persistent checkWorld execState0 "/swap1" =
        (addLog execState0 "make_persistent", Except.ok ()) ∧
     make_temporary checkWorld execState0 "/swap1" =
        (addLog execState0 "make_temporary", Except.ok ())) :=
  ⟨rfl, swap_c10_check_mode_frame checkWorld execState0 "/swap1" 512 rfl⟩
